import Mathlib

/-!
Shallow embedding of `classquiz/db/models.py` (ClassQuiz), together with the
parts of the live-game engine that the data model is designed for, modelled
from the specification where the engine code itself is not part of the
repository snapshot.

Python values are embedded as follows: `uuid.UUID` as `Nat`, `datetime` as
`Nat` (an abstract tick), `float` millisecond durations as `ℚ`, Python `str`
as `String`, optional fields as `Option`.  Pydantic validation that can raise
is embedded as `Except PyErr`; the distinct Python exception classes that the
`answers` validator can raise (`ValueError` from an explicit `raise`,
`IndexError` from `v[0]` on an empty sequence, `TypeError` from subscripting a
non-subscriptable `RangeQuizAnswer`) are separate constructors.  The source
error message strings are not carried, only the exception class.
-/

abbrev Uuid := Nat
abbrev Time := Nat

/-- The `UserAuthTypes` enum (models.py lines 19-23). -/
inductive UserAuthTypes
  | LOCAL
  | GOOGLE
  | GITHUB
  | CUSTOM
deriving DecidableEq, Repr

/-- Model of `ABCDQuizAnswer` (models.py lines 98-101). -/
structure ABCDQuizAnswer where
  right : Bool
  answer : String
  color : Option String
deriving DecidableEq, Repr

/-- Model of `RangeQuizAnswer` (models.py lines 104-108). -/
structure RangeQuizAnswer where
  min : Int
  max : Int
  min_correct : Int
  max_correct : Int
deriving DecidableEq, Repr

/-- Model of `VotingQuizAnswer` (models.py lines 111-114). -/
structure VotingQuizAnswer where
  answer : String
  image : Option String
  color : Option String
deriving DecidableEq, Repr

/-- Model of `TextQuizAnswer` (models.py lines 127-129). -/
structure TextQuizAnswer where
  answer : String
  case_sensitive : Bool
deriving DecidableEq, Repr

/-- The `QuizQuestionType` enum (models.py lines 117-124): exactly seven members. -/
inductive QuizQuestionType
  | ABCD
  | RANGE
  | VOTING
  | SLIDE
  | TEXT
  | ORDER
  | CHECK
deriving DecidableEq, Repr

/-- The parsed `answers` field of a `QuizQuestion` (models.py line 136):
`list[ABCDQuizAnswer] | RangeQuizAnswer | list[TextQuizAnswer] |
list[VotingQuizAnswer] | str`.  Pydantic coerces a payload into exactly one
union member, so a parsed list is homogeneous. -/
inductive Answers
  | abcdList (l : List ABCDQuizAnswer)
  | range (r : RangeQuizAnswer)
  | textList (l : List TextQuizAnswer)
  | votingList (l : List VotingQuizAnswer)
  | str (s : String)
deriving DecidableEq, Repr

/-- Python exception classes the `answers` validator can raise. -/
inductive PyErr
  | valueError
  | indexError
  | typeError
deriving DecidableEq, Repr

/-- Result of Python `type(x)` for the values `v[0]` can produce inside the
validator: an element of one of the union lists, or a one-character `str`
when `v` itself is a `str`. -/
inductive PyType
  | tABCDQuizAnswer
  | tRangeQuizAnswer
  | tVotingQuizAnswer
  | tTextQuizAnswer
  | tStr
deriving DecidableEq, Repr

/-- Python `type(v[0])`: `IndexError` on an empty list or empty string,
`TypeError` on a `RangeQuizAnswer` (a pydantic `BaseModel` is not
subscriptable), otherwise the type of the head element (indexing a Python
`str` yields a `str`). -/
def Answers.headType : Answers → Except PyErr PyType
  | .abcdList [] => .error .indexError
  | .abcdList (_ :: _) => .ok .tABCDQuizAnswer
  | .range _ => .error .typeError
  | .textList [] => .error .indexError
  | .textList (_ :: _) => .ok .tTextQuizAnswer
  | .votingList [] => .error .indexError
  | .votingList (_ :: _) => .ok .tVotingQuizAnswer
  | .str s => if s.isEmpty then .error .indexError else .ok .tStr

/-- Python `type(v) == RangeQuizAnswer` on the parsed union value. -/
def Answers.isRangeInstance : Answers → Bool
  | .range _ => true
  | _ => false

/-- Model of `QuizQuestion.answers_not_none_if_abcd_type` (models.py lines 139-155):
the `@validator("answers")` body, one `if` per type tag in source order.
Each Python `and` short-circuits, so `v[0]` is only evaluated in the branch
whose tag comparison succeeded; the tags are mutually exclusive, so at most
one branch evaluates `v[0]`.  `values["type"]` is the already-validated
`type` field, which may be `None`. -/
def answers_not_none_if_abcd_type (ty : Option QuizQuestionType) (v : Answers) :
    Except PyErr Answers := do
  if ty = some .ABCD then
    if (← v.headType) ≠ .tABCDQuizAnswer then
      throw .valueError
  if ty = some .RANGE then
    if ¬ v.isRangeInstance then
      throw .valueError
  if ty = some .VOTING then
    if (← v.headType) ≠ .tVotingQuizAnswer then
      throw .valueError
  if ty = some .TEXT then
    if (← v.headType) ≠ .tTextQuizAnswer then
      throw .valueError
  if ty = some .ORDER then
    if (← v.headType) ≠ .tVotingQuizAnswer then
      throw .valueError
  if ty = some .SLIDE then
    if (← v.headType) ≠ .tStr then
      throw .valueError
  if ty = some .CHECK then
    if (← v.headType) ≠ .tABCDQuizAnswer then
      throw .valueError
  return v

/-- Model of `QuizQuestion` (models.py lines 132-137).  `type` is
`None | QuizQuestionType` with default `QuizQuestionType.ABCD`; `image`
defaults to `None`. -/
structure QuizQuestion where
  question : String
  time : String
  type : Option QuizQuestionType
  answers : Answers
  image : Option String
deriving DecidableEq, Repr

/-- Constructing a `QuizQuestion` through pydantic model validation: the
field values are parsed, then the `answers` validator runs with the earlier
fields (in particular `type`) in `values`. -/
def QuizQuestion.mk_validated (question time : String) (ty : Option QuizQuestionType)
    (answers : Answers) (image : Option String) : Except PyErr QuizQuestion :=
  match answers_not_none_if_abcd_type ty answers with
  | .error e => .error e
  | .ok v => .ok ⟨question, time, ty, v, image⟩

/-- The shape the specification prescribes for each type tag: a list of
`ABCDQuizAnswer` for ABCD and CHECK, a `RangeQuizAnswer` for RANGE, a list of
`VotingQuizAnswer` for VOTING and ORDER, a list of `TextQuizAnswer` for TEXT,
and a string payload for SLIDE. -/
def shapeMatches : QuizQuestionType → Answers → Bool
  | .ABCD, .abcdList _ => true
  | .CHECK, .abcdList _ => true
  | .RANGE, .range _ => true
  | .VOTING, .votingList _ => true
  | .ORDER, .votingList _ => true
  | .TEXT, .textList _ => true
  | .SLIDE, .str _ => true
  | _, _ => false

/-- Model of `AnswerData` (models.py lines 280-285): one recorded answer inside a
persisted `GameResults` row.  `time_taken` is a Python float of milliseconds,
embedded as `ℚ`; `score` is a Python `int`. -/
structure AnswerData where
  username : String
  answer : String
  right : Bool
  time_taken : ℚ
  score : Int
deriving DecidableEq, Repr

/-- Model of `User` (models.py lines 26-53), the ormar user row. -/
structure User where
  id : Uuid
  email : String
  username : String
  password : Option String
  verified : Bool
  verify_key : Option String
  created_at : Time
  auth_type : UserAuthTypes
  google_uid : Option String
  avatar : List Nat
  github_user_id : Option Int
  require_password : Bool
  backup_code : String
  totp_secret : Option String
  storage_used : Int
deriving DecidableEq, Repr

/-- Model of `Quiz` (models.py lines 177-204), the ormar quiz row. -/
structure Quiz where
  id : Uuid
  public : Bool
  title : String
  description : Option String
  created_at : Time
  updated_at : Time
  user_id : Uuid
  questions : List QuizQuestion
  imported_from_kahoot : Option Bool
  cover_image : Option String
  background_color : Option String
  background_image : Option String
  kahoot_id : Option Uuid
deriving DecidableEq, Repr

/-- Model of `GameResults` (models.py lines 308-325), the persisted result row.  The
quiz and user columns are foreign keys, held by id; `title`, `description`
and `questions` are the row's own denormalized copies of the quiz data. -/
structure GameResults where
  id : Uuid
  quiz : Uuid
  user : Uuid
  timestamp : Time
  player_count : Int
  note : Option String
  answers : List AnswerData
  player_scores : Option (List (String × String))
  custom_field_data : Option (List (String × String))
  title : String
  description : String
  questions : List QuizQuestion
deriving DecidableEq, Repr

/-- The `nullable=` setting of an ormar column declaration. -/
structure ColumnSpec where
  nullable : Bool
deriving DecidableEq, Repr

/-- The explicit `nullable=` arguments of the `GameResults` column
declarations (models.py lines 312-320).  Columns whose declaration carries no
explicit `nullable` keyword (`id`, `quiz`, `user`, `answers`) are omitted. -/
def GameResults.fieldSpecs : List (String × ColumnSpec) :=
  [("timestamp", ⟨false⟩),
   ("player_count", ⟨false⟩),
   ("note", ⟨true⟩),
   ("player_scores", ⟨true⟩),
   ("custom_field_data", ⟨true⟩),
   ("title", ⟨false⟩),
   ("description", ⟨false⟩),
   ("questions", ⟨false⟩)]

/-- The values produced by the `default=` expressions that the source
evaluates by a function call written directly in the class body, once at
module import: `uuid.uuid4()` for `User.id` (line 31) and `Quiz.id`
(line 178), `datetime.now()` for `User.created_at` (line 37) and
`GameResults.timestamp` (line 312), `os.urandom(32).hex()` for
`User.backup_code` (line 43).  Because the call is written with parentheses,
its result value, not the callable, is stored as the column default; ormar
then reuses that one value for every row constructed without an explicit
value. -/
structure ModelDefaults where
  user_id_default : Uuid
  user_created_at_default : Time
  user_backup_code_default : String
  quiz_id_default : Uuid
  game_results_timestamp_default : Time

/-- Constructing a `User` row: every argument wrapped in `Option` is a column
with a declared default, `none` meaning the caller supplied no explicit
value; the class-definition-time values in `d` fill `id`, `created_at` and
`backup_code`, the literal defaults fill the rest (models.py lines 31-45). -/
def User.create (d : ModelDefaults) (idArg : Option Uuid) (email username : String)
    (password : Option String) (verifiedArg : Option Bool) (verify_key : Option String)
    (createdAtArg : Option Time) (authTypeArg : Option UserAuthTypes)
    (google_uid : Option String) (avatar : List Nat) (github_user_id : Option Int)
    (requirePasswordArg : Option Bool) (backupCodeArg : Option String)
    (totp_secret : Option String) (storageUsedArg : Option Int) : User :=
  { id := idArg.getD d.user_id_default
    email, username, password
    verified := verifiedArg.getD false
    verify_key
    created_at := createdAtArg.getD d.user_created_at_default
    auth_type := authTypeArg.getD .LOCAL
    google_uid, avatar, github_user_id
    require_password := requirePasswordArg.getD true
    backup_code := backupCodeArg.getD d.user_backup_code_default
    totp_secret
    storage_used := storageUsedArg.getD 0 }

/-- Constructing a `Quiz` row (models.py lines 177-190); the
class-definition-time `uuid.uuid4()` value fills `id` when the caller
supplies none.  `created_at`/`updated_at` take explicit arguments here since
no claim concerns them. -/
def Quiz.create (d : ModelDefaults) (idArg : Option Uuid) (publicArg : Option Bool)
    (title : String) (description : Option String) (created_at updated_at : Time)
    (user_id : Uuid) (questions : List QuizQuestion)
    (importedArg : Option (Option Bool)) (cover_image : Option String)
    (background_color : Option String) (background_image : Option String)
    (kahootIdArg : Option (Option Uuid)) : Quiz :=
  { id := idArg.getD d.quiz_id_default
    public := publicArg.getD false
    title, description, created_at, updated_at, user_id, questions
    imported_from_kahoot := importedArg.getD (some false)
    cover_image, background_color, background_image
    kahoot_id := kahootIdArg.getD none }

/-- Constructing a `GameResults` row (models.py lines 308-320); the
class-definition-time `datetime.now()` value fills `timestamp` when the
caller supplies none. -/
def GameResults.create (d : ModelDefaults) (id : Uuid) (quiz user : Uuid)
    (timestampArg : Option Time) (playerCountArg : Option Int) (note : Option String)
    (answers : List AnswerData) (player_scores : Option (List (String × String)))
    (custom_field_data : Option (List (String × String)))
    (title description : String) (questions : List QuizQuestion) : GameResults :=
  { id, quiz, user
    timestamp := timestampArg.getD d.game_results_timestamp_default
    player_count := playerCountArg.getD 0
    note, answers, player_scores, custom_field_data
    title, description, questions }

/-- A snapshot of the two database tables that `GameResults` references:
the `quiz` table and the `game_results` table. -/
structure Db where
  quizzes : List Quiz
  game_results : List GameResults

/-- Editing a quiz row in place (the row keeps its id). -/
def Db.updateQuiz (db : Db) (qid : Uuid) (f : Quiz → Quiz) : Db :=
  { db with quizzes := db.quizzes.map (fun q => if q.id = qid then f q else q) }

/-- Deleting a quiz row. -/
def Db.deleteQuiz (db : Db) (qid : Uuid) : Db :=
  { db with quizzes := db.quizzes.filter (fun q => q.id ≠ qid) }

/-- Model of `PlayGame` (models.py lines 233-249), the pydantic model of one live game
session.  `quiz_id` is `uuid.UUID | str`. -/
structure PlayGame where
  quiz_id : Uuid ⊕ String
  description : String
  user_id : Uuid
  title : String
  questions : List QuizQuestion
  game_id : Uuid
  game_pin : String
  started : Bool
  captcha_enabled : Bool
  cover_image : Option String
  game_mode : Option String
  current_question : Int
  background_color : Option String
  background_image : Option String
  custom_field : Option String
  question_show : Bool
deriving DecidableEq, Repr

/-- Constructing a `PlayGame` from its required fields only: the pydantic
defaults fill the rest (`started = False`, `captcha_enabled = False`,
`current_question = -1`, `question_show = False`, optional strings `None`,
models.py lines 241-249). -/
def PlayGame.create (quiz_id : Uuid ⊕ String) (description : String) (user_id : Uuid)
    (title : String) (questions : List QuizQuestion) (game_id : Uuid)
    (game_pin : String) : PlayGame :=
  { quiz_id, description, user_id, title, questions, game_id, game_pin
    started := false
    captcha_enabled := false
    cover_image := none
    game_mode := none
    current_question := -1
    background_color := none
    background_image := none
    custom_field := none
    question_show := false }

/-! The live game engine itself (session registry, roster, submission
handling, scoring, finalization) is not part of this repository snapshot;
only its data models above are.  The following definitions are modelled from
the specification. -/

/-- Modelled from the spec: an `AnswerSubmission` of the live engine (absent
from the snapshot): player identity, question index, raw payload,
`time_taken` in milliseconds, derived `correct` and derived `score`. -/
structure AnswerSubmission where
  player : String
  question_index : Int
  payload : Answers
  time_taken : ℚ
  correct : Bool
  score : Int
deriving DecidableEq, Repr

/-- Modelled from the spec: the Scorer (absent from the snapshot):
`score(correct, time_taken_ms, time_limit_ms)`, 0 if not correct, otherwise
`base + (max_score - base) * max(0, 1 - time_taken/time_limit)` taken to an
integer; deterministic and pure. -/
def scorer (correct : Bool) (time_taken time_limit : ℚ) (base max_score : Nat) : Int :=
  if correct then
    (base : Int) + ⌊((max_score - base : Nat) : ℚ) * max 0 (1 - time_taken / time_limit)⌋
  else 0

/-- Modelled from the spec: building the `AnswerSubmission` recorded at
acceptance time (absent from the snapshot): `time_taken` is non-negative and
capped at the question's time limit, `correct` is the Answer Validator's
verdict (passed in), `score` comes from the Scorer. -/
def mkSubmission (player : String) (question_index : Int) (payload : Answers)
    (correct : Bool) (time_taken time_limit : ℚ) (base max_score : Nat) :
    AnswerSubmission :=
  { player, question_index, payload, correct
    time_taken := max 0 (min time_taken time_limit)
    score := scorer correct (max 0 (min time_taken time_limit)) time_limit base max_score }

/-- Modelled from the spec: the in-memory state a `GameSession` owns — the
lifecycle flags and index that `PlayGame` declares, plus the roster and the
per-question answer ledger. -/
structure LiveSession where
  admin : String
  game_id : String
  current_question : Int
  question_show : Bool
  started : Bool
  finished : Bool
  roster : List String
  ledger : List AnswerSubmission

/-- The ledger entry recorded for a given player and question index, if any. -/
def findSubmission (ledger : List AnswerSubmission) (player : String) (qidx : Int) :
    Option AnswerSubmission :=
  ledger.find? (fun e => e.player == player && e.question_index == qidx)

/-- Reasons `submit_answer` can reject, from the spec's error taxonomy. -/
inductive AnswerRejected
  | notInProgress
  | staleQuestion
  | questionHidden
  | unknownPlayer
  | duplicate
deriving DecidableEq, Repr

/-- Modelled from the spec: `submit_answer` (absent from the snapshot):
accepted only if the session is IN_PROGRESS, the submitted index equals
`current_question`, `question_show` is true, the player is known, and the
player has no existing submission recorded for that question index; on
acceptance the new `AnswerSubmission` is recorded, otherwise the call fails
with the specific reason and the session is unchanged. -/
def submitAnswer (s : LiveSession) (player : String) (question_index : Int)
    (payload : Answers) (correct : Bool) (time_taken time_limit : ℚ)
    (base max_score : Nat) : Except AnswerRejected LiveSession :=
  if ¬ (s.started ∧ ¬ s.finished) then .error .notInProgress
  else if question_index ≠ s.current_question then .error .staleQuestion
  else if ¬ s.question_show then .error .questionHidden
  else if ¬ s.roster.contains player then .error .unknownPlayer
  else if (findSubmission s.ledger player question_index).isSome then .error .duplicate
  else .ok { s with ledger :=
    (mkSubmission player question_index payload correct time_taken time_limit base
      max_score) :: s.ledger }

/-- Modelled from the spec: the Results Finalizer's per-player total score
mapping (absent from the snapshot): for each roster player, the sum of that
player's recorded scores across all questions; a player with no recorded
submission gets the empty sum 0. -/
def finalizePlayerScores (roster : List String) (ledger : List AnswerSubmission) :
    List (String × Int) :=
  roster.map (fun p => (p, ((ledger.filter (fun e => e.player == p)).map
    (fun e => e.score)).sum))

/-- Looking a player up in the per-player total score mapping. -/
def lookupScore (scores : List (String × Int)) (p : String) : Option Int :=
  (scores.find? (fun e => e.1 == p)).map (fun e => e.2)

/-- The `type(v[0])` comparison pattern shared by six of the validator's
branches: raise the indexing error if any, otherwise accept exactly when the
head's type is `t`. -/
def headCheck (v : Answers) (t : PyType) : Except PyErr Answers :=
  match v.headType with
  | .error e => .error e
  | .ok t2 => if t2 = t then .ok v else .error .valueError

/-- The validator's sequential `if` chain rewritten as one match per tag;
the seven tag comparisons are mutually exclusive, so at most one branch of
the source chain ever fires, and `validator_eq` below checks the two forms
agree on every input. -/
def validateAnswersSpec (ty : Option QuizQuestionType) (v : Answers) :
    Except PyErr Answers :=
  match ty with
  | none => .ok v
  | some .ABCD => headCheck v .tABCDQuizAnswer
  | some .RANGE => if v.isRangeInstance then .ok v else .error .valueError
  | some .VOTING => headCheck v .tVotingQuizAnswer
  | some .TEXT => headCheck v .tTextQuizAnswer
  | some .ORDER => headCheck v .tVotingQuizAnswer
  | some .SLIDE => headCheck v .tStr
  | some .CHECK => headCheck v .tABCDQuizAnswer

theorem validator_eq (ty : Option QuizQuestionType) (v : Answers) :
    answers_not_none_if_abcd_type ty v = validateAnswersSpec ty v := by
  rcases ty with _ | t
  · cases v <;> rfl
  · cases t <;> cases v <;>
      first
        | rfl
        | (rename_i l; cases l <;> rfl)
        | (rename_i s
           unfold answers_not_none_if_abcd_type validateAnswersSpec headCheck Answers.headType
           cases hs : s.isEmpty <;> simp [hs] <;> rfl)

/-- The validator returns its input unchanged whenever it accepts. -/
theorem validator_ok_eq (ty : Option QuizQuestionType) (v r : Answers)
    (h : answers_not_none_if_abcd_type ty v = .ok r) : r = v := by
  rw [validator_eq] at h
  rcases ty with _ | t
  · simp only [validateAnswersSpec] at h
    exact (Except.ok.injEq .. ▸ h).symm
  · cases t <;>
      simp only [validateAnswersSpec, headCheck] at h <;>
      (repeat' split at h) <;> simp_all

/-- Acceptance by the validator forces the payload shape of the type tag. -/
theorem validator_ok_shape (t : QuizQuestionType) (v r : Answers)
    (h : answers_not_none_if_abcd_type (some t) v = .ok r) :
    shapeMatches t v = true := by
  rw [validator_eq] at h
  cases v with
  | range r0 =>
      cases t <;>
        first
          | rfl
          | simp_all [validateAnswersSpec, headCheck, Answers.headType, Answers.isRangeInstance]
  | abcdList l =>
      cases l <;> cases t <;>
        first
          | rfl
          | simp_all [validateAnswersSpec, headCheck, Answers.headType, Answers.isRangeInstance]
  | textList l =>
      cases l <;> cases t <;>
        first
          | rfl
          | simp_all [validateAnswersSpec, headCheck, Answers.headType, Answers.isRangeInstance]
  | votingList l =>
      cases l <;> cases t <;>
        first
          | rfl
          | simp_all [validateAnswersSpec, headCheck, Answers.headType, Answers.isRangeInstance]
  | str s =>
      cases t <;>
        first
          | rfl
          | (exfalso
             cases hs : s.isEmpty <;>
               simp_all [validateAnswersSpec, headCheck, Answers.headType,
                 Answers.isRangeInstance])

/-- C1: every `QuizQuestion` accepted by model validation has an answers
payload whose shape matches its type tag — a list of `ABCDQuizAnswer` for
ABCD and CHECK, a `RangeQuizAnswer` for RANGE, a list of `VotingQuizAnswer`
for VOTING and ORDER, a list of `TextQuizAnswer` for TEXT, a string for
SLIDE — equivalently, a question whose answers shape does not match its type
tag is never accepted at construction. -/
theorem validated_quizQuestion_shape_matches_type (question time : String)
    (t : QuizQuestionType) (v : Answers) (image : Option String) (q : QuizQuestion)
    (h : QuizQuestion.mk_validated question time (some t) v image = .ok q) :
    shapeMatches t q.answers = true := by
  unfold QuizQuestion.mk_validated at h
  cases hval : answers_not_none_if_abcd_type (some t) v with
  | error e => rw [hval] at h; exact absurd h (by simp)
  | ok w =>
      rw [hval] at h
      have hq : q = ⟨question, time, some t, w, image⟩ := by
        cases h; rfl
      have hw : w = v := validator_ok_eq (some t) v w hval
      have hs := validator_ok_shape t v w hval
      rw [hq]
      simpa [hw] using hs

theorem validated_quizQuestion_shape_matches_type_witness :
    QuizQuestion.mk_validated "q" "20" (some .ABCD)
        (Answers.abcdList [⟨true, "yes", none⟩]) none =
      .ok ⟨"q", "20", some .ABCD, Answers.abcdList [⟨true, "yes", none⟩], none⟩ ∧
    shapeMatches .ABCD (Answers.abcdList [⟨true, "yes", none⟩]) = true :=
  ⟨rfl, validated_quizQuestion_shape_matches_type "q" "20" .ABCD
    (Answers.abcdList [⟨true, "yes", none⟩]) none _ rfl⟩

/-- C9: for every list-shaped type tag (ABCD, VOTING, TEXT, ORDER, SLIDE,
CHECK) the validator is partial on empty payloads: validating an empty
answers list reaches the `v[0]` access and raises `IndexError` instead of a
clean `ValueError` rejection, for each of the three empty-list payloads the
`answers` union can parse to. -/
theorem empty_answers_list_raises_indexError :
    answers_not_none_if_abcd_type (some .ABCD) (Answers.abcdList []) = .error .indexError ∧
    answers_not_none_if_abcd_type (some .ABCD) (Answers.textList []) = .error .indexError ∧
    answers_not_none_if_abcd_type (some .ABCD) (Answers.votingList []) = .error .indexError ∧
    answers_not_none_if_abcd_type (some .VOTING) (Answers.abcdList []) = .error .indexError ∧
    answers_not_none_if_abcd_type (some .VOTING) (Answers.textList []) = .error .indexError ∧
    answers_not_none_if_abcd_type (some .VOTING) (Answers.votingList []) = .error .indexError ∧
    answers_not_none_if_abcd_type (some .TEXT) (Answers.abcdList []) = .error .indexError ∧
    answers_not_none_if_abcd_type (some .TEXT) (Answers.textList []) = .error .indexError ∧
    answers_not_none_if_abcd_type (some .TEXT) (Answers.votingList []) = .error .indexError ∧
    answers_not_none_if_abcd_type (some .ORDER) (Answers.abcdList []) = .error .indexError ∧
    answers_not_none_if_abcd_type (some .ORDER) (Answers.textList []) = .error .indexError ∧
    answers_not_none_if_abcd_type (some .ORDER) (Answers.votingList []) = .error .indexError ∧
    answers_not_none_if_abcd_type (some .SLIDE) (Answers.abcdList []) = .error .indexError ∧
    answers_not_none_if_abcd_type (some .SLIDE) (Answers.textList []) = .error .indexError ∧
    answers_not_none_if_abcd_type (some .SLIDE) (Answers.votingList []) = .error .indexError ∧
    answers_not_none_if_abcd_type (some .CHECK) (Answers.abcdList []) = .error .indexError ∧
    answers_not_none_if_abcd_type (some .CHECK) (Answers.textList []) = .error .indexError ∧
    answers_not_none_if_abcd_type (some .CHECK) (Answers.votingList []) = .error .indexError :=
  ⟨rfl, rfl, rfl, rfl, rfl, rfl, rfl, rfl, rfl, rfl, rfl, rfl, rfl, rfl, rfl, rfl, rfl, rfl⟩

/-- C10: the answers shape check for ORDER is the same predicate as the one
for VOTING: for every payload, validation with tag ORDER succeeds exactly
when validation with tag VOTING succeeds (both compare `type(v[0])` with
`VotingQuizAnswer`). -/
theorem order_voting_same_shape_check (v : Answers) :
    (∃ r, answers_not_none_if_abcd_type (some .ORDER) v = .ok r) ↔
    (∃ r, answers_not_none_if_abcd_type (some .VOTING) v = .ok r) := by
  simp only [validator_eq]
  exact Iff.rfl

/-- C6 counterexample: `QuizQuestion.type` is `None | QuizQuestionType`, so
model validation accepts a question whose `type` is `None`: that question
carries no type tag at all, refuting "every Question carries a type tag". -/
theorem quizQuestion_accepts_type_none :
    QuizQuestion.mk_validated "q" "20" none (Answers.str "x") none =
      .ok ⟨"q", "20", none, Answers.str "x", none⟩ ∧
    ∀ t : QuizQuestionType,
      (⟨"q", "20", none, Answers.str "x", none⟩ : QuizQuestion).type ≠ some t :=
  ⟨rfl, fun t h => by cases h⟩

/-- C6 (amended): every `QuizQuestion` carries an optional type tag, which
may also be `None`; whenever the tag is present it is one of the seven values
ABCD, RANGE, VOTING, TEXT, ORDER, CHECK, SLIDE. -/
theorem quizQuestion_type_among_seven (q : QuizQuestion) :
    q.type = none ∨
    q.type = some .ABCD ∨ q.type = some .RANGE ∨ q.type = some .VOTING ∨
    q.type = some .TEXT ∨ q.type = some .ORDER ∨ q.type = some .CHECK ∨
    q.type = some .SLIDE := by
  rcases hq : q.type with _ | t
  · exact Or.inl rfl
  · right
    cases t <;> simp

/-- C3: a newly created `PlayGame` session is in lobby state:
`current_question = -1`, `started = false`, and `question_show = false`. -/
theorem playGame_created_in_lobby_state (quiz_id : Uuid ⊕ String) (description : String)
    (user_id : Uuid) (title : String) (questions : List QuizQuestion) (game_id : Uuid)
    (game_pin : String) :
    (PlayGame.create quiz_id description user_id title questions game_id
      game_pin).current_question = -1 ∧
    (PlayGame.create quiz_id description user_id title questions game_id
      game_pin).started = false ∧
    (PlayGame.create quiz_id description user_id title questions game_id
      game_pin).question_show = false :=
  ⟨rfl, rfl, rfl⟩

/-- C7: a `GameResults` row carries its own mandatory copy of the quiz's
title, description and questions: the three columns are declared
`nullable=False`, and because the copies live in the `game_results` row
itself, editing or deleting the source quiz row leaves every stored
`GameResults` record unchanged. -/
theorem gameResults_owns_quiz_copy :
    (GameResults.fieldSpecs.lookup "title" = some ⟨false⟩ ∧
     GameResults.fieldSpecs.lookup "description" = some ⟨false⟩ ∧
     GameResults.fieldSpecs.lookup "questions" = some ⟨false⟩) ∧
    ∀ (db : Db) (qid : Uuid) (f : Quiz → Quiz),
      (db.updateQuiz qid f).game_results = db.game_results ∧
      (db.deleteQuiz qid).game_results = db.game_results :=
  ⟨⟨rfl, rfl, rfl⟩, fun _ _ _ => ⟨rfl, rfl⟩⟩

/-- C8: model field defaults are computed once, at class-definition time.
Any two `User` rows created without explicit values share the identical
default `id`, `created_at` and `backup_code`; any two `Quiz` rows created
without an explicit `id` share the same default `id`; any two `GameResults`
rows created without an explicit `timestamp` share the same default
timestamp — because `uuid.uuid4()`, `datetime.now()` and
`os.urandom(32).hex()` are called once when `models.py` is imported and
their result values are stored as the column defaults. -/
theorem defaults_computed_once_at_class_definition (d : ModelDefaults)
    (e1 u1 : String) (p1 : Option String) (v1 : Option Bool) (vk1 : Option String)
    (at1 : Option UserAuthTypes) (g1 : Option String) (av1 : List Nat)
    (gh1 : Option Int) (rp1 : Option Bool) (ts1 : Option String) (su1 : Option Int)
    (e2 u2 : String) (p2 : Option String) (v2 : Option Bool) (vk2 : Option String)
    (at2 : Option UserAuthTypes) (g2 : Option String) (av2 : List Nat)
    (gh2 : Option Int) (rp2 : Option Bool) (ts2 : Option String) (su2 : Option Int)
    (qp1 : Option Bool) (qt1 : String) (qd1 : Option String) (qc1 qu1 : Time)
    (qui1 : Uuid) (qq1 : List QuizQuestion) (qi1 : Option (Option Bool))
    (qci1 qbc1 qbi1 : Option String) (qk1 : Option (Option Uuid))
    (qp2 : Option Bool) (qt2 : String) (qd2 : Option String) (qc2 qu2 : Time)
    (qui2 : Uuid) (qq2 : List QuizQuestion) (qi2 : Option (Option Bool))
    (qci2 qbc2 qbi2 : Option String) (qk2 : Option (Option Uuid))
    (ri1 rq1 ru1 : Uuid) (rpc1 : Option Int) (rn1 : Option String)
    (ra1 : List AnswerData) (rps1 rcf1 : Option (List (String × String)))
    (rt1 rd1 : String) (rqs1 : List QuizQuestion)
    (ri2 rq2 ru2 : Uuid) (rpc2 : Option Int) (rn2 : Option String)
    (ra2 : List AnswerData) (rps2 rcf2 : Option (List (String × String)))
    (rt2 rd2 : String) (rqs2 : List QuizQuestion) :
    (User.create d none e1 u1 p1 v1 vk1 none at1 g1 av1 gh1 rp1 none ts1 su1).id =
      (User.create d none e2 u2 p2 v2 vk2 none at2 g2 av2 gh2 rp2 none ts2 su2).id ∧
    (User.create d none e1 u1 p1 v1 vk1 none at1 g1 av1 gh1 rp1 none ts1 su1).created_at =
      (User.create d none e2 u2 p2 v2 vk2 none at2 g2 av2 gh2 rp2 none ts2 su2).created_at ∧
    (User.create d none e1 u1 p1 v1 vk1 none at1 g1 av1 gh1 rp1 none ts1 su1).backup_code =
      (User.create d none e2 u2 p2 v2 vk2 none at2 g2 av2 gh2 rp2 none ts2 su2).backup_code ∧
    (Quiz.create d none qp1 qt1 qd1 qc1 qu1 qui1 qq1 qi1 qci1 qbc1 qbi1 qk1).id =
      (Quiz.create d none qp2 qt2 qd2 qc2 qu2 qui2 qq2 qi2 qci2 qbc2 qbi2 qk2).id ∧
    (GameResults.create d ri1 rq1 ru1 none rpc1 rn1 ra1 rps1 rcf1 rt1 rd1 rqs1).timestamp =
      (GameResults.create d ri2 rq2 ru2 none rpc2 rn2 ra2 rps2 rcf2 rt2 rd2 rqs2).timestamp :=
  ⟨rfl, rfl, rfl, rfl, rfl⟩

/-- C5: a recorded `AnswerSubmission` has non-negative `time_taken` of at
most the question's time limit, and a non-negative integer `score`. -/
theorem answerSubmission_time_and_score_bounds (player : String) (qidx : Int)
    (payload : Answers) (correct : Bool) (t limit : ℚ) (base maxScore : Nat)
    (h : 0 ≤ limit) :
    0 ≤ (mkSubmission player qidx payload correct t limit base maxScore).time_taken ∧
    (mkSubmission player qidx payload correct t limit base maxScore).time_taken ≤ limit ∧
    0 ≤ (mkSubmission player qidx payload correct t limit base maxScore).score := by
  refine ⟨le_max_left 0 _, max_le h (min_le_right t limit), ?_⟩
  show (0 : ℤ) ≤ scorer correct (max 0 (min t limit)) limit base maxScore
  unfold scorer
  split
  · exact add_nonneg (Int.natCast_nonneg base)
      (Int.floor_nonneg.mpr (mul_nonneg (Nat.cast_nonneg _) (le_max_left 0 _)))
  · exact le_refl 0

theorem answerSubmission_time_and_score_bounds_witness :
    (0 : ℚ) ≤ 20000 ∧
    (0 ≤ (mkSubmission "alice" 0 (Answers.str "x") true 500 20000 100 1000).time_taken ∧
     (mkSubmission "alice" 0 (Answers.str "x") true 500 20000 100 1000).time_taken ≤ 20000 ∧
     0 ≤ (mkSubmission "alice" 0 (Answers.str "x") true 500 20000 100 1000).score) :=
  ⟨by norm_num,
   answerSubmission_time_and_score_bounds "alice" 0 (Answers.str "x") true 500 20000 100
     1000 (by norm_num)⟩

/-- C2: once an `AnswerSubmission` is recorded in the ledger for a player and
question index, any later submission by the same player for the same index
is rejected, and no accepted submission (by anyone, for any index) ever
overwrites or duplicates the recorded entry — the ledger keeps at most one
accepted submission per (player, question index). -/
theorem ledger_at_most_one_submission (s : LiveSession) (p : String) (q : Int)
    (sub : AnswerSubmission) (payload : Answers) (correct : Bool)
    (t limit : ℚ) (base maxScore : Nat) (p2 : String) (q2 : Int)
    (payload2 : Answers) (correct2 : Bool) (t2 limit2 : ℚ) (base2 maxScore2 : Nat)
    (s2 : LiveSession)
    (h : findSubmission s.ledger p q = some sub) :
    (∃ r, submitAnswer s p q payload correct t limit base maxScore = .error r) ∧
    (submitAnswer s p2 q2 payload2 correct2 t2 limit2 base2 maxScore2 = .ok s2 →
      findSubmission s2.ledger p q = some sub) := by
  constructor
  · unfold submitAnswer
    repeat' split
    all_goals first
      | exact ⟨_, rfl⟩
      | (exfalso; simp_all)
  · intro h2
    unfold submitAnswer at h2
    repeat' split at h2
    all_goals try (exact Except.noConfusion h2)
    rename_i hnotin _
    cases h2
    by_cases hpq : p2 = p ∧ q2 = q
    · exfalso
      rcases hpq with ⟨hp2, hq2⟩
      subst hp2 hq2
      simp_all
    · have hhead : ¬ ((fun e => e.player == p && e.question_index == q)
          (mkSubmission p2 q2 payload2 correct2 t2 limit2 base2 maxScore2) = true) := by
        simp only [mkSubmission, Bool.and_eq_true, beq_iff_eq]
        exact hpq
      exact (List.find?_cons_of_neg s.ledger hhead).trans h

theorem ledger_at_most_one_submission_witness :
    findSubmission [(⟨"alice", 0, Answers.str "x", 500, true, 800⟩ : AnswerSubmission)]
        "alice" 0 = some ⟨"alice", 0, Answers.str "x", 500, true, 800⟩ ∧
    ((∃ r, submitAnswer ⟨"admin", "g", 0, true, true, false, ["alice", "bob"],
        [⟨"alice", 0, Answers.str "x", 500, true, 800⟩]⟩ "alice" 0 (Answers.str "x") true
        500 20000 100 1000 = .error r) ∧
     (submitAnswer ⟨"admin", "g", 0, true, true, false, ["alice", "bob"],
        [⟨"alice", 0, Answers.str "x", 500, true, 800⟩]⟩ "bob" 0 (Answers.str "y") true
        600 20000 100 1000 = .ok ⟨"admin", "g", 0, true, true, false, ["alice", "bob"],
          mkSubmission "bob" 0 (Answers.str "y") true 600 20000 100 1000 ::
            [⟨"alice", 0, Answers.str "x", 500, true, 800⟩]⟩ →
       findSubmission (mkSubmission "bob" 0 (Answers.str "y") true 600 20000 100 1000 ::
         [⟨"alice", 0, Answers.str "x", 500, true, 800⟩]) "alice" 0 =
         some ⟨"alice", 0, Answers.str "x", 500, true, 800⟩)) :=
  ⟨rfl, ledger_at_most_one_submission _ "alice" 0 _ (Answers.str "x") true 500 20000 100
    1000 "bob" 0 (Answers.str "y") true 600 20000 100 1000 _ rfl⟩

/-- A roster member always appears in the finalized score mapping, with the
sum of that player's recorded scores. -/
theorem lookupScore_finalize (ledger : List AnswerSubmission) (p : String)
    (roster : List String) (hp : p ∈ roster) :
    lookupScore (finalizePlayerScores roster ledger) p =
      some (((ledger.filter (fun e => e.player == p)).map (fun e => e.score)).sum) := by
  induction roster with
  | nil => cases hp
  | cons a rest ih =>
      by_cases hap : a = p
      · subst hap
        unfold finalizePlayerScores lookupScore
        rw [List.map_cons, List.find?_cons_of_pos]
        · rfl
        · simp
      · unfold finalizePlayerScores lookupScore
        rw [List.map_cons, List.find?_cons_of_neg]
        · exact ih (List.mem_of_ne_of_mem (fun hpa => hap hpa.symm) hp)
        · simp [hap]

/-- C4: in the finalized per-player total score mapping, every roster player
is assigned a total equal to the sum of that player's recorded per-question
scores; the total is non-negative whenever each recorded score is, and a
player with zero submissions appears with total 0 rather than being
absent. -/
theorem finalizer_roster_scores (roster : List String) (ledger : List AnswerSubmission)
    (p : String) (hp : p ∈ roster) (hnn : ∀ e ∈ ledger, 0 ≤ e.score) :
    ∃ total, lookupScore (finalizePlayerScores roster ledger) p = some total ∧
      total = ((ledger.filter (fun e => e.player == p)).map (fun e => e.score)).sum ∧
      0 ≤ total ∧
      ((∀ e ∈ ledger, e.player ≠ p) → total = 0) := by
  refine ⟨_, lookupScore_finalize ledger p roster hp, rfl, ?_, ?_⟩
  · apply List.sum_nonneg
    intro x hx
    rcases List.mem_map.mp hx with ⟨e, he, rfl⟩
    exact hnn e (List.mem_filter.mp he).1
  · intro hz
    have hfil : ledger.filter (fun e => e.player == p) = [] := by
      apply List.filter_eq_nil_iff.mpr
      intro e he
      simp only [beq_iff_eq]
      exact hz e he
    rw [hfil]
    rfl

theorem finalizer_roster_scores_witness :
    ("alice" ∈ ["alice", "bob"]) ∧
    (∀ e ∈ [(⟨"alice", 0, Answers.str "x", 500, true, 800⟩ : AnswerSubmission)],
       0 ≤ e.score) ∧
    (∃ total, lookupScore (finalizePlayerScores ["alice", "bob"]
        [(⟨"alice", 0, Answers.str "x", 500, true, 800⟩ : AnswerSubmission)]) "alice" =
          some total ∧
      total = (([(⟨"alice", 0, Answers.str "x", 500, true, 800⟩ :
          AnswerSubmission)].filter (fun e => e.player == "alice")).map
            (fun e => e.score)).sum ∧
      0 ≤ total ∧
      ((∀ e ∈ [(⟨"alice", 0, Answers.str "x", 500, true, 800⟩ : AnswerSubmission)],
          e.player ≠ "alice") → total = 0)) :=
  ⟨by simp, by decide, finalizer_roster_scores ["alice", "bob"] _ "alice" (by simp)
    (by decide)⟩
